import Mathlib

/-!
Verification of the MCP test client connection lifecycle and call contract
(src/client/MCPTestClient.ts), as a shallow embedding.

Modelling conventions:
- A JavaScript object of type Record String (String or undefined) is modelled as a
  function String to Option (Option String): none means the key is absent, some none
  means the key is present with value undefined, and some (some v) means value v.
- Asynchronous effects of the external collaborators (process spawn, the protocol
  client handshake and close) are modelled by outcome oracles passed as arguments.
- The operating system is modelled by a World that tracks the next process id, the
  list of live process ids, and the environments passed to spawned processes.
- A thrown exception is modelled as the error case of Except; async method bodies
  become functions returning an Except result together with the updated state.
-/

namespace MCPTestKit

/-- Record String (String or undefined): none = absent, some none = undefined value. -/
abbrev EnvU : Type := String → Option (Option String)

/-- Record String String: none = absent. -/
abbrev EnvS : Type := String → Option String

/-- JavaScript object spread, as in the expression spread a b for braces a, ...b:
every key present in b (even with an undefined value) overrides the entry of a. -/
def spread (a b : EnvU) : EnvU := fun k =>
  match b k with
  | some v => some v
  | none => a k

/-- cleanEnv from src/client/MCPTestClient.ts lines 22-30: filter out entries whose
value is undefined, keep entries with a defined value. -/
def cleanEnv (env : EnvU) : EnvS := fun k =>
  match env k with
  | some (some v) => some v
  | _ => none

/-- JSON-like value, modelling the unknown-typed payloads that the client passes
through without inspecting. -/
inductive JSVal where
  | str (s : String)
  | num (n : Int)
  | boolean (b : Bool)
  | null
  | arr (xs : List JSVal)
  | obj (fields : List (String × JSVal))

/-- The resolved configuration, Required MCPTestClientConfig after the constructor
applies the defaults (src/client/MCPTestClient.ts lines 42-51). -/
structure SessionConfig where
  command : String
  args : List String
  env : EnvU
  timeout : Nat
  transport : String
  serverUrl : String
  debug : Bool

/-- Mutable fields of MCPTestClient: transport handle, process handle, and the
initialized flag (the connected flag of the spec). -/
structure ClientState where
  transport : Option Unit
  process : Option Nat
  connected : Bool
deriving DecidableEq

/-- Operating-system model: a counter of process ids, the ids of currently live
processes, and a log of the environment object passed to each spawn call. -/
structure World where
  nextPid : Nat
  live : List Nat
  spawned : List EnvS

/-- Errors thrown by the client, with the spec taxonomy names. The handshake and
close errors originate in the external protocol client and are kept opaque. -/
inductive Err where
  | alreadyConnected
  | configurationError (transport : String)
  | launchError
  | handshakeError
  | closeError
  | notConnected
deriving DecidableEq

/-- Message string of each error thrown by code under src, copied verbatim. -/
def Err.message : Err → String
  | .alreadyConnected => "Client is already connected"
  | .configurationError t =>
      "Transport type \x27" ++ t ++ "\x27 not yet implemented. Only \x27stdio\x27 is currently supported."
  | .launchError => "Failed to create process stdio streams"
  | .handshakeError => "handshake failed"
  | .closeError => "close failed"
  | .notConnected => "Client is not connected. Call connect() first."

/-- Outcomes of the external effects during connect: whether the spawned process
exposes stdout and stdin streams, and whether client.connect succeeds. -/
structure ConnectOutcome where
  streamsOk : Bool
  handshakeOk : Bool

/-- Outcome of the external effect during disconnect: whether client.close succeeds. -/
structure DisconnectOutcome where
  closeOk : Bool

/-- The effective environment computed by connect (line 77): cleanEnv applied to the
spread of the ambient process env under the configured env. -/
def connectEnv (ambient : EnvU) (cfg : SessionConfig) : EnvS :=
  cleanEnv (spread ambient cfg.env)

/-- spawn(command, args, env): allocate a fresh pid, mark it live, log the env. -/
def spawn (env : EnvS) (w : World) : Nat × World :=
  (w.nextPid,
   { nextPid := w.nextPid + 1, live := w.nextPid :: w.live, spawned := env :: w.spawned })

/-- process.kill(): send a termination signal, removing the process from the live set. -/
def kill (pid : Nat) (w : World) : World :=
  { w with live := w.live.erase pid }

/-- connect() from src/client/MCPTestClient.ts lines 67-118. Checks the initialized
flag, then the transport kind, merges the environment, spawns the process and stores
its handle, fails if the stdio streams are missing, creates the transport, runs the
protocol handshake via client.connect, and only then sets initialized. -/
def connect (cfg : SessionConfig) (ambient : EnvU) (oc : ConnectOutcome)
    (s : ClientState) (w : World) : Except Err Unit × ClientState × World :=
  if s.connected then (.error .alreadyConnected, s, w)
  else if cfg.transport ≠ "stdio" then (.error (.configurationError cfg.transport), s, w)
  else
    let processEnv := connectEnv ambient cfg
    let pw := spawn processEnv w
    let s1 : ClientState := { s with process := some pw.1 }
    if oc.streamsOk = false then (.error .launchError, s1, pw.2)
    else
      let s2 : ClientState := { s1 with transport := some () }
      if oc.handshakeOk = false then (.error .handshakeError, s2, pw.2)
      else (.ok (), { s2 with connected := true }, pw.2)

/-- client.close() as an oracle-driven external call that may fail. -/
def clientClose (oc : DisconnectOutcome) : Except Err Unit :=
  if oc.closeOk then .ok () else .error .closeError

/-- The try/catch around client.close() in disconnect (lines 128-134): any error is
swallowed (and only optionally logged). -/
def swallowClose (oc : DisconnectOutcome) : Except Err Unit :=
  match clientClose oc with
  | .ok u => .ok u
  | .error _ => .ok ()

/-- disconnect() from src/client/MCPTestClient.ts lines 123-147. Returns immediately
when not initialized; otherwise closes the client with errors swallowed, kills the
process and clears its handle, clears the transport handle, resets the flag. -/
def disconnect (oc : DisconnectOutcome) (s : ClientState) (w : World) :
    Except Err Unit × ClientState × World :=
  if s.connected = false then (.ok (), s, w)
  else
    match swallowClose oc with
    | .error e => (.error e, s, w)
    | .ok _ =>
      match s.process with
      | some pid =>
          (.ok (), { s with process := none, transport := none, connected := false },
           kill pid w)
      | none => (.ok (), { s with transport := none, connected := false }, w)

/-- The state-and-world effect of one disconnect call, for iterating. -/
def dStep (oc : DisconnectOutcome) (p : ClientState × World) : ClientState × World :=
  (disconnect oc p.1 p.2).2

/-- ensureConnected() from lines 152-156: throw when the flag is not set. -/
def ensureConnected (s : ClientState) : Except Err Unit :=
  if s.connected = false then .error .notConnected else .ok ()

/-- One remote request issued through the protocol client, for tracing which calls
an operation performs. -/
inductive Request where
  | listTools
  | callTool (name : String)
  | listResources
  | readResource (uri : String)
  | listPrompts
  | getPrompt (name : String)
deriving DecidableEq

/-- MCPTool from src/types/index.ts. Property values of the schema are opaque. -/
structure MCPTool where
  name : String
  description : Option String
  properties : Option (List (String × JSVal))
  required : Option (List String)

/-- MCPResource from src/types/index.ts. -/
structure MCPResource where
  uri : String
  name : String
  description : Option String
  mimeType : Option String

/-- One argument descriptor of an MCPPrompt. -/
structure MCPPromptArg where
  name : String
  description : Option String
  required : Option Bool

/-- MCPPrompt from src/types/index.ts. -/
structure MCPPrompt where
  name : String
  description : Option String
  arguments : Option (List MCPPromptArg)

/-- One content item of a tool result. -/
structure ContentItem where
  type : String
  text : Option String
  data : Option String
  mimeType : Option String

/-- MCPToolResult from src/types/index.ts. -/
structure MCPToolResult where
  content : List ContentItem
  isError : Option Bool

/-- MCPResourceContent from src/types/index.ts. -/
structure MCPResourceContent where
  uri : String
  mimeType : Option String
  text : Option String
deriving DecidableEq

/-- MCPServerCapabilities from src/types/index.ts; the four capability records are
opaque payloads. -/
structure MCPServerCapabilities where
  tools : Option JSVal
  resources : Option JSVal
  prompts : Option JSVal
  logging : Option JSVal

/-- MCPInitializeResult from src/types/index.ts. -/
structure MCPInitializeResult where
  protocolVersion : String
  capabilitiesTools : Option JSVal
  capabilitiesResources : Option JSVal
  capabilitiesPrompts : Option JSVal
  capabilitiesLogging : Option JSVal
  serverName : String
  serverVersion : String

/-- listTools() lines 161-165: guard, call, then coalesce a missing tools array
to the empty list. The second component is the list of remote requests issued. -/
def listTools (s : ClientState) (resp : Option (List MCPTool)) :
    Except Err (List MCPTool) × List Request :=
  match ensureConnected s with
  | .error e => (.error e, [])
  | .ok _ => (.ok (resp.getD []), [Request.listTools])

/-- callTool() lines 170-174: guard, call, return the response unchanged. -/
def callTool (s : ClientState) (name : String) (_args : List (String × JSVal))
    (resp : MCPToolResult) : Except Err MCPToolResult × List Request :=
  match ensureConnected s with
  | .error e => (.error e, [])
  | .ok _ => (.ok resp, [Request.callTool name])

/-- listResources() lines 179-183: guard, call, coalesce a missing resources array. -/
def listResources (s : ClientState) (resp : Option (List MCPResource)) :
    Except Err (List MCPResource) × List Request :=
  match ensureConnected s with
  | .error e => (.error e, [])
  | .ok _ => (.ok (resp.getD []), [Request.listResources])

/-- readResource() lines 188-192: guard, call, return the first element of the
optional contents array; the result is undefined (none) when the array is missing
or empty, despite the declared MCPResourceContent return type. -/
def readResource (s : ClientState) (uri : String)
    (resp : Option (List MCPResourceContent)) :
    Except Err (Option MCPResourceContent) × List Request :=
  match ensureConnected s with
  | .error e => (.error e, [])
  | .ok _ => (.ok (resp.getD []).head?, [Request.readResource uri])

/-- listPrompts() lines 197-201: guard, call, coalesce a missing prompts array. -/
def listPrompts (s : ClientState) (resp : Option (List MCPPrompt)) :
    Except Err (List MCPPrompt) × List Request :=
  match ensureConnected s with
  | .error e => (.error e, [])
  | .ok _ => (.ok (resp.getD []), [Request.listPrompts])

/-- getPrompt() lines 206-210: guard, call, pass the opaque response through. -/
def getPrompt (s : ClientState) (name : String) (_args : List (String × String))
    (resp : JSVal) : Except Err JSVal × List Request :=
  match ensureConnected s with
  | .error e => (.error e, [])
  | .ok _ => (.ok resp, [Request.getPrompt name])

/-- getServerInfo() lines 215-228: guard, then return a static placeholder without
issuing any remote request. -/
def getServerInfo (s : ClientState) : Except Err MCPInitializeResult × List Request :=
  match ensureConnected s with
  | .error e => (.error e, [])
  | .ok _ =>
      (.ok { protocolVersion := "2024-11-05",
             capabilitiesTools := none, capabilitiesResources := none,
             capabilitiesPrompts := none, capabilitiesLogging := none,
             serverName := "unknown", serverVersion := "unknown" }, [])

/-- Effective environment as the spec words it: the ambient environment overridden
by the configured entries, where every entry whose value is undefined is absent
from the result and every defined configured value replaces the ambient value. -/
def specEffectiveEnv (ambient config : EnvU) : EnvS := fun k =>
  match config k with
  | some (some v) => some v
  | some none => none
  | none =>
      match ambient k with
      | some (some v) => some v
      | _ => none

/-- A concrete resolved config with stdio transport, for witnesses. -/
def stdioCfg : SessionConfig :=
  { command := "node", args := ["server.js"], env := fun _ => none,
    timeout := 5000, transport := "stdio", serverUrl := "", debug := false }

/-- A concrete resolved config with an unsupported transport, for witnesses. -/
def sseCfg : SessionConfig :=
  { stdioCfg with transport := "sse" }

/-- A concrete ambient environment, for witnesses. -/
def ambEx : EnvU := fun k =>
  if k = "HOME" then some (some "/root")
  else if k = "TMP" then some none
  else none

/-- A concrete configured environment, for witnesses: overrides HOME, adds KEY,
carries an undefined-valued entry DROP. -/
def cfgEnvEx : EnvU := fun k =>
  if k = "HOME" then some (some "/home/x")
  else if k = "KEY" then some (some "v")
  else if k = "DROP" then some none
  else none

/-- The stdio config with the concrete configured environment, for witnesses. -/
def cfgEx : SessionConfig :=
  { stdioCfg with env := cfgEnvEx }

/-- A freshly constructed client state: no handles, not initialized. -/
def freshState : ClientState :=
  { transport := none, process := none, connected := false }

/-- A state as left by one successful connect: both handles set, initialized. -/
def connectedState : ClientState :=
  { transport := some (), process := some 0, connected := true }

/-- The initial world: no process spawned yet. -/
def w0 : World :=
  { nextPid := 0, live := [], spawned := [] }

/-- The world after one spawn of pid 0 that is still live. -/
def w1 : World :=
  { nextPid := 1, live := [0], spawned := [fun _ => none] }

/-- A concrete resource content value, for witnesses. -/
def contentA : MCPResourceContent :=
  { uri := "file:///a", mimeType := some "text/plain", text := some "A" }

/-- A second concrete resource content value, for witnesses. -/
def contentB : MCPResourceContent :=
  { uri := "file:///b", mimeType := none, text := some "B" }

theorem swallowClose_ok (oc : DisconnectOutcome) : swallowClose oc = .ok () := by
  obtain ⟨b⟩ := oc
  cases b <;> rfl

theorem dStep_not_connected (oc : DisconnectOutcome) (p : ClientState × World) :
    (dStep oc p).1.connected = false := by
  unfold dStep disconnect
  by_cases h : p.1.connected = false
  · simp [h]
  · simp only [h, if_false, swallowClose_ok oc]
    cases p.1.process <;> simp

theorem dStep_noop (oc : DisconnectOutcome) (q : ClientState × World)
    (h : q.1.connected = false) : dStep oc q = q := by
  unfold dStep disconnect
  simp [h]

/-- C1: the claim states that when connect fails after the spawn, the spawned
process is not left running and connect has no lasting side effect. The code
violates this: with a stdio config and a spawn whose stdio streams are missing,
connect throws the launch error but leaves the spawned process (pid 0) live and
the process handle set, while the connected flag stays false, so a following
disconnect is a no-op and never kills it. -/
theorem connect_stream_failure_leaks_process :
    (connect stdioCfg (fun _ => none) ⟨false, true⟩ freshState w0).1 =
      .error .launchError ∧
    (connect stdioCfg (fun _ => none) ⟨false, true⟩ freshState w0).2.1.process = some 0 ∧
    (connect stdioCfg (fun _ => none) ⟨false, true⟩ freshState w0).2.1.connected = false ∧
    (connect stdioCfg (fun _ => none) ⟨false, true⟩ freshState w0).2.2.live = [0] ∧
    (disconnect ⟨true⟩
        (connect stdioCfg (fun _ => none) ⟨false, true⟩ freshState w0).2.1
        (connect stdioCfg (fun _ => none) ⟨false, true⟩ freshState w0).2.2).2.2.live
      = [0] :=
  ⟨rfl, rfl, rfl, rfl, rfl⟩

/-- C2: the claim states that a Session owns at most one live process at any
moment. The code violates this across a sequence of operations: a first connect
that fails at the stdio-stream check leaves pid 0 live, and a second connect then
succeeds and spawns pid 1, leaving two processes of this Session live at once. -/
theorem two_connects_leave_two_live_processes :
    (connect stdioCfg (fun _ => none) ⟨true, true⟩
        (connect stdioCfg (fun _ => none) ⟨false, true⟩ freshState w0).2.1
        (connect stdioCfg (fun _ => none) ⟨false, true⟩ freshState w0).2.2).1 = .ok () ∧
    (connect stdioCfg (fun _ => none) ⟨true, true⟩
        (connect stdioCfg (fun _ => none) ⟨false, true⟩ freshState w0).2.1
        (connect stdioCfg (fun _ => none) ⟨false, true⟩ freshState w0).2.2).2.2.live
      = [1, 0] :=
  ⟨rfl, rfl⟩

/-- C3: on a connected session, disconnect never throws even when closing the
protocol client fails: the close error is swallowed, the process is sent a
termination signal (removed from the live set), both handles are cleared, and the
connected flag is reset. -/
theorem disconnect_never_throws (oc : DisconnectOutcome) (s : ClientState)
    (w : World) (pid : Nat) (hc : s.connected = true) (hp : s.process = some pid) :
    (disconnect oc s w).1 = .ok () ∧
    (disconnect oc s w).2.1.process = none ∧
    (disconnect oc s w).2.1.transport = none ∧
    (disconnect oc s w).2.1.connected = false ∧
    (disconnect oc s w).2.2.live = w.live.erase pid := by
  unfold disconnect
  simp [hc, hp, swallowClose_ok oc, kill]

theorem disconnect_never_throws_witness :
    connectedState.connected = true ∧ connectedState.process = some 0 ∧
    ((disconnect ⟨false⟩ connectedState w1).1 = .ok () ∧
     (disconnect ⟨false⟩ connectedState w1).2.1.process = none ∧
     (disconnect ⟨false⟩ connectedState w1).2.1.transport = none ∧
     (disconnect ⟨false⟩ connectedState w1).2.1.connected = false ∧
     (disconnect ⟨false⟩ connectedState w1).2.2.live = w1.live.erase 0) :=
  ⟨rfl, rfl, disconnect_never_throws ⟨false⟩ connectedState w1 0 rfl rfl⟩

/-- C4: on a session that is not connected, every remote-call operation fails with
the not-connected error carrying the exact message from the source, and issues no
remote request (the request trace is empty). -/
theorem ops_require_connection (s : ClientState) (h : s.connected = false) :
    Err.message .notConnected = "Client is not connected. Call connect() first." ∧
    (∀ resp, listTools s resp = (.error .notConnected, [])) ∧
    (∀ name args resp, callTool s name args resp = (.error .notConnected, [])) ∧
    (∀ resp, listResources s resp = (.error .notConnected, [])) ∧
    (∀ uri resp, readResource s uri resp = (.error .notConnected, [])) ∧
    (∀ resp, listPrompts s resp = (.error .notConnected, [])) ∧
    (∀ name args resp, getPrompt s name args resp = (.error .notConnected, [])) ∧
    getServerInfo s = (.error .notConnected, []) := by
  refine ⟨rfl, ?_, ?_, ?_, ?_, ?_, ?_, ?_⟩ <;>
    simp [listTools, callTool, listResources, readResource, listPrompts, getPrompt,
      getServerInfo, ensureConnected, h]

theorem ops_require_connection_witness :
    freshState.connected = false ∧
    listTools freshState none = (.error .notConnected, []) ∧
    getServerInfo freshState = (.error .notConnected, []) :=
  ⟨rfl, (ops_require_connection freshState rfl).2.1 none,
   (ops_require_connection freshState rfl).2.2.2.2.2.2.2⟩

/-- C5: on a not-yet-connected session, connect with a transport kind other than
stdio fails with the configuration error and leaves the state and the world
unchanged, so no process is spawned. -/
theorem connect_rejects_non_stdio (cfg : SessionConfig) (ambient : EnvU)
    (oc : ConnectOutcome) (s : ClientState) (w : World)
    (hns : s.connected = false) (ht : cfg.transport ≠ "stdio") :
    connect cfg ambient oc s w = (.error (.configurationError cfg.transport), s, w) := by
  unfold connect
  simp [hns, ht]

theorem connect_rejects_non_stdio_witness :
    freshState.connected = false ∧ sseCfg.transport ≠ "stdio" ∧
    connect sseCfg (fun _ => none) ⟨true, true⟩ freshState w0 =
      (.error (.configurationError sseCfg.transport), freshState, w0) :=
  ⟨rfl, by decide,
   connect_rejects_non_stdio sseCfg (fun _ => none) ⟨true, true⟩ freshState w0 rfl
     (by decide)⟩

/-- C6: connect on an already-connected session fails with the already-connected
error and leaves the state (connected flag and both handles) and the world
unchanged. -/
theorem connect_rejects_already_connected (cfg : SessionConfig) (ambient : EnvU)
    (oc : ConnectOutcome) (s : ClientState) (w : World) (h : s.connected = true) :
    connect cfg ambient oc s w = (.error .alreadyConnected, s, w) := by
  unfold connect
  simp [h]

theorem connect_rejects_already_connected_witness :
    connectedState.connected = true ∧
    connect stdioCfg (fun _ => none) ⟨true, true⟩ connectedState w1 =
      (.error .alreadyConnected, connectedState, w1) :=
  ⟨rfl,
   connect_rejects_already_connected stdioCfg (fun _ => none) ⟨true, true⟩
     connectedState w1 rfl⟩

/-- C7: disconnect on a not-connected session is a no-op that returns normally and
changes no state; disconnect always returns normally; and after one disconnect any
further repetitions change nothing, so n+1 calls equal one call. -/
theorem disconnect_idempotent (oc : DisconnectOutcome) (s : ClientState) (w : World) :
    (s.connected = false → disconnect oc s w = (.ok (), s, w)) ∧
    (disconnect oc s w).1 = .ok () ∧
    (∀ n, (dStep oc)^[n] (dStep oc (s, w)) = dStep oc (s, w)) := by
  refine ⟨fun h => by unfold disconnect; simp [h], ?_, ?_⟩
  · by_cases h : s.connected = false
    · unfold disconnect; simp [h]
    · unfold disconnect
      simp only [h, if_false, swallowClose_ok oc]
      cases s.process <;> simp
  · intro n
    induction n with
    | zero => simp
    | succ k ih =>
        rw [Function.iterate_succ_apply', ih,
          dStep_noop oc _ (dStep_not_connected oc _)]

theorem disconnect_idempotent_witness :
    freshState.connected = false ∧
    disconnect ⟨true⟩ freshState w0 = (.ok (), freshState, w0) :=
  ⟨rfl, (disconnect_idempotent ⟨true⟩ freshState w0).1 rfl⟩

/-- C8: the environment that connect computes and passes to spawn equals, at every
key, the spec-side merge: ambient overridden by configured entries, undefined
values absent, defined values replacing the ambient value; and on the stdio path
that environment is exactly what the spawn call receives. -/
theorem connect_env_merge (ambient : EnvU) (cfg : SessionConfig) :
    (∀ k, connectEnv ambient cfg k = specEffectiveEnv ambient cfg.env k) ∧
    (∀ oc s w, s.connected = false → cfg.transport = "stdio" →
      (connect cfg ambient oc s w).2.2.spawned = connectEnv ambient cfg :: w.spawned) := by
  constructor
  · intro k
    unfold connectEnv cleanEnv spread specEffectiveEnv
    rcases hc : cfg.env k with _ | _ | v
    · rcases ha : ambient k with _ | _ | v2 <;> simp [hc, ha]
    · simp [hc]
    · simp [hc]
  · intro oc s w hns ht
    unfold connect
    rcases oc with ⟨b1, b2⟩
    cases b1 <;> cases b2 <;> simp [hns, ht, spawn]

theorem connect_env_merge_witness :
    freshState.connected = false ∧ cfgEx.transport = "stdio" ∧
    connectEnv ambEx cfgEx "HOME" = specEffectiveEnv ambEx cfgEx.env "HOME" ∧
    (connect cfgEx ambEx ⟨true, true⟩ freshState w0).2.2.spawned =
      connectEnv ambEx cfgEx :: w0.spawned :=
  ⟨rfl, rfl, (connect_env_merge ambEx cfgEx).1 "HOME",
   (connect_env_merge ambEx cfgEx).2 ⟨true, true⟩ freshState w0 rfl rfl⟩

/-- C9: on a connected session, when the reply to readResource carries a non-empty
contents array, readResource returns exactly its first element, whatever the rest
of the array contains, after issuing exactly one read-resource request. -/
theorem readResource_returns_first (s : ClientState) (uri : String)
    (c : MCPResourceContent) (rest : List MCPResourceContent)
    (h : s.connected = true) :
    readResource s uri (some (c :: rest)) = (.ok (some c), [Request.readResource uri]) := by
  unfold readResource ensureConnected
  simp [h]

theorem readResource_returns_first_witness :
    connectedState.connected = true ∧
    readResource connectedState "file:///a" (some [contentA, contentB]) =
      (.ok (some contentA), [Request.readResource "file:///a"]) :=
  ⟨rfl, readResource_returns_first connectedState "file:///a" contentA [contentB] rfl⟩

/-- C10: on a connected session, when the reply to readResource has a missing or
empty contents array, readResource returns normally with no content value (the
undefined result of the optional chain), rather than failing. -/
theorem readResource_empty_contents (s : ClientState) (uri : String)
    (resp : Option (List MCPResourceContent)) (h : s.connected = true)
    (he : resp = none ∨ resp = some []) :
    readResource s uri resp = (.ok none, [Request.readResource uri]) := by
  unfold readResource ensureConnected
  rcases he with he | he <;> simp [h, he]

theorem readResource_empty_contents_witness :
    connectedState.connected = true ∧ (none : Option (List MCPResourceContent)) = none ∧
    readResource connectedState "file:///missing" none =
      (.ok none, [Request.readResource "file:///missing"]) :=
  ⟨rfl, rfl,
   readResource_empty_contents connectedState "file:///missing" none rfl (Or.inl rfl)⟩

end MCPTestKit
